/-
Verification of the Adaptive Conversational Gating Engine of YesButFirst.

Shallow embedding of the decision logic in src/ai-service.js (classifier,
age-band resolver, follow-up extraction, adapter answer/evaluate with retry
and fallback semantics) and src/main-with-ai.js (the process-message
conversation controller). Network and model calls are modelled as explicit
outcome parameters; every deterministic branch is translated directly from
the source.
-/
import Mathlib

/- String helpers mirroring the JavaScript primitives used by the source
(String.prototype.trim, toLowerCase, startsWith, includes). -/

def isWsChar (c : Char) : Bool := c.isWhitespace

def trimChars (l : List Char) : List Char :=
  ((l.dropWhile isWsChar).reverse.dropWhile isWsChar).reverse

def dropTrailingWs (l : List Char) : List Char :=
  (l.reverse.dropWhile isWsChar).reverse

def lowerChars (l : List Char) : List Char := l.map Char.toLower

/-- Boolean prefix test on character lists, mirroring String.prototype.startsWith. -/
def leadsWith : List Char → List Char → Bool
  | [], _ => true
  | _ :: _, [] => false
  | a :: as, b :: bs => a == b && leadsWith as bs

/- Age-band resolver (src/ai-service.js, AIService.getAgeGroup, lines 166-180). -/

inductive AgeGroup
  | young
  | middle
  | teen
deriving DecidableEq, Repr

/-- Embeds AIService.getAgeGroup. The JS guard `if (!childAge) return 'teen'`
is truthy for null, undefined and also for the number 0, hence the explicit
zero case before the range checks. -/
def getAgeGroup (childAge : Option Int) : AgeGroup :=
  match childAge with
  | none => .teen
  | some a =>
    if a = 0 then .teen
    else if 5 ≤ a ∧ a ≤ 8 then .young
    else if 9 ≤ a ∧ a ≤ 12 then .middle
    else if 13 ≤ a ∧ a ≤ 17 then .teen
    else if a < 5 then .young
    else if a > 17 then .teen
    else .teen

/- Nonsense classifier (src/ai-service.js, AIService.isNonsensicalQuestion,
lines 199-218). Each regular expression of the source is translated into a
decidable predicate on the trimmed character list. -/

def isAsciiLetter (c : Char) : Bool :=
  (decide ('a' ≤ c) && decide (c ≤ 'z')) || (decide ('A' ≤ c) && decide (c ≤ 'Z'))

/-- Characters matched by the regex metacharacter dot (anything except line
terminators). -/
def jsDotChar (c : Char) : Bool :=
  !(c == '\n' || c == '\r' || c == '\u2028' || c == '\u2029')

/-- Regex ^[^a-zA-Z]*$ : no letters at all. -/
def patNoLetters (t : List Char) : Bool := t.all (fun c => !isAsciiLetter c)

/-- Regex ^(.)\1{3,}$ : one character repeated four or more times. -/
def patRepeatedChar (t : List Char) : Bool :=
  match t with
  | [] => false
  | c :: rest => jsDotChar c && decide (3 ≤ rest.length) && rest.all (fun d => d == c)

/-- Regex ^[a-z]{5,}$ with flag i : five or more letters and nothing else. -/
def patAllLetters (t : List Char) : Bool := decide (5 ≤ t.length) && t.all isAsciiLetter

/-- Regex ^[\d\s]+$ : digits and whitespace only. -/
def patDigitsSpaces (t : List Char) : Bool :=
  !t.isEmpty && t.all (fun c => c.isDigit || isWsChar c)

def isSpecialChar (c : Char) : Bool :=
  c == '!' || c == '@' || c == '#' || c == '$' || c == '%' ||
  c == '^' || c == '&' || c == '*' || c == '(' || c == ')'

/-- Regex ^[!@#$%^&*()]+$ : listed special characters only. -/
def patSpecialChars (t : List Char) : Bool := !t.isEmpty && t.all isSpecialChar

def junkLeads : List (List Char) :=
  ["asdf", "qwer", "zxcv", "poiuy", "lkjh", "test", "random", "blah", "foo"].map String.data

/-- Regex ^(asdf|qwer|zxcv|poiuy|lkjh|test|random|blah|foo) with flag i. -/
def patJunkLead (t : List Char) : Bool := junkLeads.any (fun w => leadsWith w (lowerChars t))

def tripleLeads : List (List Char) :=
  ["aaa", "bbb", "ccc", "ddd", "eee", "fff", "ggg", "hhh", "iii", "jjj", "kkk", "lll", "mmm",
   "nnn", "ooo", "ppp", "qqq", "rrr", "sss", "ttt", "uuu", "vvv", "www", "xxx", "yyy",
   "zzz"].map String.data

/-- Regex ^(aaa|bbb|...|zzz) with flag i : starts with a tripled letter. -/
def patTripleLead (t : List Char) : Bool := tripleLeads.any (fun w => leadsWith w (lowerChars t))

/-- Regex ^test$ with flag i. -/
def patTestWord (t : List Char) : Bool := lowerChars t == "test".data

def greetingWords : List (List Char) := ["hi", "hello", "hey", "yo", "sup"].map String.data

/-- Regex ^(hi|hello|hey|yo|sup)$ with flag i. -/
def patGreeting (t : List Char) : Bool := greetingWords.any (fun w => lowerChars t == w)

/-- Regex ^let me in$ with flag i. -/
def patLetMeIn (t : List Char) : Bool := lowerChars t == "let me in".data

/-- Regex ^this is broken$ with flag i. -/
def patThisIsBroken (t : List Char) : Bool := lowerChars t == "this is broken".data

/-- Disjunction of the fixed nonsensePatterns array, in source order. -/
def anyJunkPattern (t : List Char) : Bool :=
  patNoLetters t || patRepeatedChar t || patAllLetters t || patDigitsSpaces t ||
  patSpecialChars t || patJunkLead t || patTripleLead t || patTestWord t ||
  patGreeting t || patLetMeIn t || patThisIsBroken t

/-- Embeds AIService.isNonsensicalQuestion: true when the trimmed text has
fewer than 3 characters or some fixed junk pattern matches it. -/
def isNonsensicalQuestion (question : String) : Bool :=
  let t := trimChars question.data
  decide (t.length < 3) || anyJunkPattern t

/- New-question detector, inlined in the understanding branch of the
process-message handler (src/main-with-ai.js, lines 158-170). -/

def questionWords : List String := ["what ", "how ", "why ", "when ", "where ", "who "]

/-- Embeds startsWithQuestionWord of the handler: the lowercased trimmed
message starts with one of the fixed interrogative words (each carrying a
trailing space in the source). -/
def startsWithQuestionWord (message : String) : Bool :=
  let lm := trimChars (lowerChars message.data)
  questionWords.any (fun w => leadsWith w.data lm)

/-- Embeds hasQuestionMark of the handler (message.includes with a question
mark). -/
def hasQuestionMark (message : String) : Bool := message.data.contains '?'

/-- Embeds the isNewQuestion constant of the understanding branch. -/
def isNewQuestion (message : String) : Bool :=
  hasQuestionMark message && startsWithQuestionWord message

/- Follow-up extractor (src/main-with-ai.js extractFollowUpQuestion, lines
566-591, and the behaviourally identical
AIService.extractFollowUpQuestionFromResponse, src/ai-service.js lines
183-197). The two regular expressions are translated by their match
semantics. -/

def sentenceTerm (c : Char) : Bool := c == '.' || c == '!'

def fallbackTerm (c : Char) : Bool := c == '.' || c == '!' || c == '?'

/-- Match semantics of the anchored regex (group [^.!]* followed by a
question mark, then \s*$): after discarding trailing whitespace the text
must end in a question mark, and the captured group is the trailing clause
running back to the nearest sentence terminator. -/
def primaryQuestionMatch (l : List Char) : Option (List Char) :=
  match (dropTrailingWs l).reverse with
  | [] => none
  | c :: rest =>
    if c == '?' then some ((c :: rest.takeWhile (fun d => !sentenceTerm d)).reverse)
    else none

/-- Match semantics of the global regex [^.!?]*\? : every match ends at a
question mark and starts after the previous terminator, so the last match
in document order is the clause ending at the last question mark. -/
def lastQuestionMatch (l : List Char) : Option (List Char) :=
  match l.reverse.dropWhile (fun c => !(c == '?')) with
  | [] => none
  | q :: rest => some ((q :: rest.takeWhile (fun d => !fallbackTerm d)).reverse)

/-- Embeds extractFollowUpQuestion: the primary trailing-clause match,
otherwise the last question-terminated substring, otherwise none. The
returned clause is trimmed as in the source. -/
def extractFollowUpQuestion (s : String) : Option String :=
  if s.data.isEmpty then none
  else
    match primaryQuestionMatch s.data with
    | some g => some (String.mk (trimChars g))
    | none =>
      match lastQuestionMatch s.data with
      | some g => some (String.mk (trimChars g))
      | none => none

/- Timeout constants of AIService.evaluateUnderstanding (src/ai-service.js).
The adapter races the model call against its own timer of 10000 ms (line
111) while the axios request itself carries an 8000 ms transport timeout
(line 142). -/

/-- Adapter-level evaluation timeout in milliseconds (setTimeout at line 111). -/
def evaluationTimeoutMs : Nat := 10000

/-- Transport-level axios timeout in milliseconds for the same request (line 142). -/
def axiosEvalTimeoutMs : Nat := 8000

/- Evaluation shape (spec section 3) produced by the evaluate operation of
every provider (src/ai-service.js). A null or absent suggestion is
modelled as none. -/

structure Evaluation where
  understood : Bool
  feedback : String
  suggestion : Option String
deriving DecidableEq, Repr

/-- Generous default of AIService.evaluateUnderstanding (lines 155-163),
returned from the catch block on any error: timeout, network failure or
JSON parse failure. -/
def baseGenerousDefault : Evaluation :=
  { understood := true
    feedback := "Good effort! You can unlock your computer now."
    suggestion := none }

/-- Embeds AIService.evaluateUnderstanding. The network call, the race with
the adapter timer and the JSON parse are summarised by one outcome: ok with
the parsed Evaluation, or error for any raised exception. The catch block
maps every error to the generous default. -/
def evaluateUnderstandingBase (outcome : Except Unit Evaluation) : Evaluation :=
  match outcome with
  | .ok e => e
  | .error _ => baseGenerousDefault

/-- Generous default of GeminiService.evaluateUnderstanding (lines 526-532),
returned after the retry loop exits without a parsed result. -/
def geminiGenerousDefault : Evaluation :=
  { understood := true
    feedback := "Great job! You can unlock your computer now."
    suggestion := none }

/-- Embeds the retry loop of GeminiService.evaluateUnderstanding (lines
466-524). Each list element is one attempt: ok with the parsed Evaluation,
or error. A 503 and a non-503 error differ only in the backoff delay, never
in control flow, so the error payload is irrelevant; after the attempts are
exhausted the generous default is returned. -/
def evaluateUnderstandingGemini : List (Except Unit Evaluation) → Evaluation
  | [] => geminiGenerousDefault
  | .ok e :: _ => e
  | .error _ :: rest => evaluateUnderstandingGemini rest

/- Answer operation of the providers. -/

/-- Shape of a successful answerQuestion result as consumed by the
controller: the text, the total token usage, and the isNonsense marker. -/
structure AnswerReply where
  answer : String
  totalTokens : Nat
  isNonsense : Bool
deriving DecidableEq, Repr

/-- Canned redirect returned by AIService.answerQuestion for a nonsensical
question (lines 224-230). -/
def nonsenseRedirect : String :=
  "Please ask a real question to unlock your computer! 🤔 Try something like: How do airplanes fly? Why is the sky blue? How do computers work?"

/-- Sequential retry loop shared by both providers: the first successful
attempt wins, an exhausted list propagates the error. The second component
counts the network calls actually made. -/
def runRetries {α : Type} : List (Except Unit α) → Except Unit α × Nat
  | [] => (.error (), 0)
  | .ok r :: _ => (.ok r, 1)
  | .error _ :: rest =>
    let p := runRetries rest
    (p.1, p.2 + 1)

/-- Embeds AIService.answerQuestion (lines 221-293). The nonsense check
short-circuits before the retry loop with zero usage and zero network
calls; otherwise up to maxRetries network attempts are made and an
exhausted loop rethrows (Failed to get answer from AI). Each successful
attempt carries the answer text and its total token count. -/
def answerQuestionBase (question : String) (attempts : List (Except Unit (String × Nat))) :
    Except Unit AnswerReply × Nat :=
  if isNonsensicalQuestion question then
    (.ok { answer := nonsenseRedirect, totalTokens := 0, isNonsense := true }, 0)
  else
    match runRetries attempts with
    | (.ok (text, tok), n) => (.ok { answer := text, totalTokens := tok, isNonsense := false }, n)
    | (.error _, n) => (.error (), n)

/-- Token estimate of GeminiService.answerQuestion: ceil of (question length
plus answer length) divided by 4. -/
def geminiEstimatedTokens (question answer : String) : Nat :=
  (question.length + answer.length + 3) / 4

/-- Embeds GeminiService.answerQuestion (lines 360-442). The override
performs NO nonsense check: the body enters the retry loop and issues a
network request immediately, whatever the question. Every error path of the
third attempt throws, so the keyword fallback after the loop is dead code;
a 503 differs from other errors only in the backoff delay. -/
def answerQuestionGemini (question : String) (attempts : List (Except Unit String)) :
    Except Unit AnswerReply × Nat :=
  match runRetries attempts with
  | (.ok text, n) =>
    (.ok { answer := text
           totalTokens := geminiEstimatedTokens question text
           isNonsense := false }, n)
  | (.error _, n) => (.error (), n)

/- Usage accounting (src/ai-service.js, updateUsage lines 312-319,
getUsageStats lines 321-328, calculateCost lines 295-310). Costs are exact
rationals; absent fields of a usage payload are 0, which is also how JS
truthiness tests them. -/

structure ApiUsage where
  total_tokens : Nat
  prompt_tokens : Nat
  completion_tokens : Nat
deriving DecidableEq, Repr

/-- Embeds AIService.calculateCost: detailed OpenAI pricing when all three
fields are present (0.0005 and 0.0015 per thousand tokens), the flat
0.00002 rate when only total_tokens is present, otherwise 0. -/
def calculateCost (u : ApiUsage) : ℚ :=
  if u.total_tokens ≠ 0 ∧ u.prompt_tokens ≠ 0 ∧ u.completion_tokens ≠ 0 then
    ((u.prompt_tokens : ℚ) / 1000) * (5 / 10000) +
      ((u.completion_tokens : ℚ) / 1000) * (15 / 10000)
  else if u.total_tokens ≠ 0 then
    ((u.total_tokens : ℚ) / 1000) * (2 / 100000)
  else 0

structure UsageState where
  totalTokens : Nat
  conversations : Nat
  estimatedCost : ℚ
deriving DecidableEq, Repr

/-- Usage counters at construction time (AIService constructor, lines 13-17). -/
def initialUsage : UsageState :=
  { totalTokens := 0, conversations := 0, estimatedCost := 0 }

/-- Embeds AIService.updateUsage: tokens accumulate only when the payload
field is truthy, the conversation counter always increments, and the cost
of the call is added. -/
def updateUsage (s : UsageState) (u : ApiUsage) : UsageState :=
  { totalTokens := s.totalTokens + (if u.total_tokens ≠ 0 then u.total_tokens else 0)
    conversations := s.conversations + 1
    estimatedCost := s.estimatedCost + calculateCost u }

/-- Usage states reachable from process start through updateUsage calls. -/
inductive ReachableUsage : UsageState → Prop
  | init : ReachableUsage initialUsage
  | step (s : UsageState) (u : ApiUsage) : ReachableUsage s → ReachableUsage (updateUsage s u)

/-- JavaScript number outcomes relevant to the stats division: NaN from
0 divided by 0, Infinity from a positive value divided by 0, or a finite
rational. -/
inductive JsNum
  | nan
  | inf
  | val (q : ℚ)
deriving DecidableEq, Repr

/-- JS division a / b restricted to the nonnegative operands occurring here. -/
def jsDiv (a b : ℚ) : JsNum :=
  if b = 0 then (if a = 0 then .nan else .inf) else .val (a / b)

/-- JS expression x || 0 on a number: NaN and 0 collapse to 0, everything
else (Infinity included) passes through. -/
def jsOrZero : JsNum → JsNum
  | .nan => .val 0
  | .inf => .inf
  | .val q => if q = 0 then .val 0 else .val q

/-- Embeds the averageTokensPerConversation field of getUsageStats. -/
def averageTokensPerConversation (s : UsageState) : JsNum :=
  jsOrZero (jsDiv (s.totalTokens : ℚ) (s.conversations : ℚ))

/-- Embeds the costPerConversation field of getUsageStats. -/
def costPerConversation (s : UsageState) : JsNum :=
  jsOrZero (jsDiv s.estimatedCost (s.conversations : ℚ))

/- Conversation controller (src/main-with-ai.js, the process-message
handler, lines 90-377). The handler is a function of the module-level
currentConversation state and the incoming message and stage; the two AI
calls are modelled as explicit outcome parameters (AnswerCall and the
Except result of the evaluate call), the complexity recommender
(questionGenerator.getNextQuestionLevel) as an optional optional next
question, and the age band as a parameter resolved by getAgeGroup. -/

inductive Stage
  | question
  | understanding
  | complete
deriving DecidableEq, Repr

structure ConvState where
  pendingQuestion : Option String
  pendingAnswer : Option String
deriving DecidableEq, Repr

/-- State written by every reset site of the handler: question and answer
null (the new-question branch clears to an empty object, which reads back
as the same two absent fields). -/
def resetConvState : ConvState := { pendingQuestion := none, pendingAnswer := none }

/-- Response shape returned to the renderer. unlockSignals counts the
unlock-computer events emitted to the renderer during the turn. -/
structure TurnResponse where
  message : String
  stage : Stage
  retry : Bool
  error : Bool
  unlock : Bool
  unlockSignals : Nat
deriving DecidableEq, Repr

/-- Outcome of an ai.answerQuestion call as the controller observes it:
a nonsense short-circuit carrying the redirect text, a successful answer,
or a thrown error (retries exhausted). -/
inductive AnswerCall
  | nonsense (redirect : String)
  | ok (text : String)
  | failed
deriving DecidableEq, Repr

/-- View of answerQuestionBase as the controller observes it. -/
def answerCallOfBase (question : String) (attempts : List (Except Unit (String × Nat))) :
    AnswerCall :=
  match (answerQuestionBase question attempts).1 with
  | .ok r => if r.isNonsense then .nonsense r.answer else .ok r.answer
  | .error _ => .failed

/-- JS expression s || d for a possibly null string: null, undefined and
the empty string fall back to d. -/
def jsStrOr (s : Option String) (d : String) : String :=
  match s with
  | none => d
  | some t => if t = "" then d else t

/-- Suggestion computation of the not-understood branch (lines 345-349):
evaluation.suggestion with fallback to a fixed retry prompt, then
overridden by the complexity recommender when that produced a truthy next
question. nextLevel is none when the question generator is absent or
returned null, some nq when present with next question nq. -/
def computeSuggestion (evalSuggestion : Option String) (nextLevel : Option (Option String)) :
    String :=
  let s := jsStrOr evalSuggestion "Try again?"
  match nextLevel with
  | none => s
  | some nq => jsStrOr nq s

/-- Age-banded unlock messages (lines 318-327). -/
def unlockMessage (g : AgeGroup) : String :=
  match g with
  | .young => "Great job! 🎉 Computer unlocked!"
  | .middle => "Nice thinking! 🎉 Computer unlocked!"
  | .teen => "Well done! 🎉 Access granted!"

/-- Fixed connectivity message of the outer catch (lines 371-375). -/
def connectivityErrorMessage : String :=
  "Sorry, I\x27m having trouble connecting right now. Try asking in a different way or check your internet! 📡"

/-- Answer path shared by the question stage and the new-question branch of
the understanding stage: preState is the conversation state left in place
when the nonsense short-circuit returns (unchanged in the question stage,
already cleared in the new-question branch). -/
def answerTurn (preState : ConvState) (message : String) (ans : AnswerCall) :
    TurnResponse × ConvState :=
  match ans with
  | .nonsense redirect =>
    ({ message := redirect, stage := .question, retry := false, error := false,
       unlock := false, unlockSignals := 0 }, preState)
  | .ok text =>
    ({ message := text, stage := .understanding, retry := false, error := false,
       unlock := false, unlockSignals := 0 },
     { pendingQuestion := some message, pendingAnswer := some text })
  | .failed =>
    ({ message := connectivityErrorMessage, stage := .question, retry := false,
       error := true, unlock := false, unlockSignals := 0 }, resetConvState)

/-- Body of the inner try of the evaluate path (lines 265-289), in source
order: the first debug log (line 267) only reads in-scope bindings; the
second debug log (lines 274-281) reads childInterests.length, but
childInterests is declared with a block-scoped let only inside the
question branch (line 106) and the new-question branch (line 180), so on
the evaluate path the read throws ReferenceError. The
ai.evaluateUnderstanding call at line 283, whose result the evalOut oracle
stands for, is therefore never reached: the body always raises. -/
def evaluateTryBody (_evalOut : Except Unit Evaluation) : Except Unit Evaluation :=
  Except.error ()

/-- Evaluate path of the understanding stage (lines 229-357). Because
evaluateTryBody always raises, the inner catch (lines 291-308) runs on
every execution, installing an ad hoc generous verdict (understood true,
feedback Nice!, empty suggestion) and resetting the state; the understood
branch then signals unlock once and returns the age-banded message with
cleared pending state. The ok branch of the match and the not-understood
retry branch below are kept as the translation of the source try/catch and
of lines 341-356, but both are unreachable, exactly as in the program. -/
def evaluateTurn (st : ConvState) (evalOut : Except Unit Evaluation)
    (nextLevel : Option (Option String)) (ageGroup : AgeGroup) :
    TurnResponse × ConvState :=
  let ev : Evaluation × ConvState :=
    match evaluateTryBody evalOut with
    | .ok e => (e, st)
    | .error _ => ({ understood := true, feedback := "Nice!", suggestion := some "" },
                   resetConvState)
  if ev.1.understood then
    ({ message := unlockMessage ageGroup, stage := .complete, retry := false,
       error := false, unlock := true, unlockSignals := 1 }, resetConvState)
  else
    ({ message := ev.1.feedback ++ " " ++ computeSuggestion ev.1.suggestion nextLevel,
       stage := .understanding, retry := true, error := false, unlock := false,
       unlockSignals := 0 }, ev.2)

/-- Embeds the process-message handler. The handler has no branch for a
complete input stage (a session is reinitialised by the shell), which the
option models: none corresponds to the undefined return of the source. The
evalOut oracle stands for the result the evaluate call would produce
(fed extractFollowUpQuestion of the pending answer with fallback to the
pending question); on the evaluate path it is dead, because the inner try
raises ReferenceError before the call, see evaluateTryBody. -/
def processMessage (st : ConvState) (message : String) (stage : Stage)
    (ans : AnswerCall) (evalOut : Except Unit Evaluation)
    (nextLevel : Option (Option String)) (ageGroup : AgeGroup) :
    Option (TurnResponse × ConvState) :=
  match stage with
  | .question => some (answerTurn st message ans)
  | .understanding =>
    if isNewQuestion message then some (answerTurn resetConvState message ans)
    else some (evaluateTurn st evalOut nextLevel ageGroup)
  | .complete => none

/- Shared helper lemmas. -/

theorem mem_of_mem_dropTrailingWs {c : Char} {l : List Char}
    (h : c ∈ dropTrailingWs l) : c ∈ l := by
  unfold dropTrailingWs at h
  have h1 : c ∈ l.reverse.dropWhile isWsChar := List.mem_reverse.mp h
  exact List.mem_reverse.mp ((List.dropWhile_sublist _).mem h1)

theorem primaryQuestionMatch_eq_none {l : List Char} (h : '?' ∉ l) :
    primaryQuestionMatch l = none := by
  unfold primaryQuestionMatch
  cases hrev : (dropTrailingWs l).reverse with
  | nil => rfl
  | cons c rest =>
    have hc : c ∈ (dropTrailingWs l).reverse := by rw [hrev]; exact List.mem_cons_self c rest
    have hcl : c ∈ l := mem_of_mem_dropTrailingWs (List.mem_reverse.mp hc)
    have hne : ¬ (c = '?') := fun he => h (he ▸ hcl)
    simp [hne]

theorem lastQuestionMatch_eq_none {l : List Char} (h : '?' ∉ l) :
    lastQuestionMatch l = none := by
  unfold lastQuestionMatch
  have hd : l.reverse.dropWhile (fun c => !(c == '?')) = [] := by
    rw [List.dropWhile_eq_nil_iff]
    intro x hx
    have hxl : x ∈ l := List.mem_reverse.mp hx
    have : ¬ (x = '?') := fun he => h (he ▸ hxl)
    simp [this]
  rw [hd]

theorem jsOrZero_val (q : ℚ) : ∃ r, jsOrZero (.val q) = .val r := by
  by_cases h : q = 0
  · exact ⟨0, by simp [jsOrZero, h]⟩
  · exact ⟨q, by simp [jsOrZero, h]⟩

theorem jsDiv_of_ne_zero (a b : ℚ) (h : b ≠ 0) : jsDiv a b = .val (a / b) := by
  unfold jsDiv
  rw [if_neg h]

theorem runRetries_all_error {α : Type} :
    ∀ l : List (Except Unit α), (∀ a ∈ l, a = .error ()) →
      runRetries l = (.error (), l.length)
  | [], _ => rfl
  | a :: rest, h => by
    have ha : a = .error () := h a (List.mem_cons_self a rest)
    subst ha
    have ih := runRetries_all_error rest (fun b hb => h b (List.mem_cons_of_mem _ hb))
    simp [runRetries, ih]

/-- C2: for every input and every error raised during evaluation (timeout,
network failure, malformed model output), the evaluate operation of each
provider does not propagate the error: it returns an Evaluation with
understood true, a non-null (nonempty) feedback string and a null
suggestion. The base adapter (also inherited by the Claude subclass) maps
any raised error to its generous default; the Gemini override maps a run of
failed attempts to its generous default. -/
theorem c2_evaluate_never_propagates :
    (∀ u : Unit, evaluateUnderstandingBase (.error u) = baseGenerousDefault) ∧
    baseGenerousDefault.understood = true ∧
    baseGenerousDefault.feedback ≠ "" ∧
    baseGenerousDefault.suggestion = none ∧
    (∀ attempts : List (Except Unit Evaluation),
      (∀ a ∈ attempts, a = .error ()) →
      evaluateUnderstandingGemini attempts = geminiGenerousDefault) ∧
    geminiGenerousDefault.understood = true ∧
    geminiGenerousDefault.feedback ≠ "" ∧
    geminiGenerousDefault.suggestion = none := by
  refine ⟨fun u => rfl, rfl, by decide, rfl, ?_, rfl, by decide, rfl⟩
  intro attempts h
  induction attempts with
  | nil => rfl
  | cons a rest ih =>
    have ha : a = .error () := h a (List.mem_cons_self a rest)
    subst ha
    exact ih (fun b hb => h b (List.mem_cons_of_mem _ hb))

/-- C2 witness: the generous defaults are produced at concrete failing
inputs of both providers. -/
theorem c2_evaluate_never_propagates_witness :
    evaluateUnderstandingGemini [.error (), .error (), .error ()] = geminiGenerousDefault ∧
    evaluateUnderstandingBase (.error ()) = baseGenerousDefault := by
  exact ⟨c2_evaluate_never_propagates.2.2.2.2.1 [.error (), .error (), .error ()] (by simp),
         c2_evaluate_never_propagates.1 ()⟩

/-- C5 counterexample: the adapter-level evaluation timeout (10000 ms) is
NOT strictly shorter than the transport-level axios timeout (8000 ms)
configured on the same request, contradicting the claim. -/
theorem c5_counterexample : ¬ (evaluationTimeoutMs < axiosEvalTimeoutMs) := by decide

/-- C5 amended: the transport-level axios timeout (8000 ms) is strictly
shorter than the adapter-level evaluation timeout (10000 ms), so the
transport timeout fires first; the resulting error is still caught and
mapped to the generous default. -/
theorem c5_timeout_ordering_amended : axiosEvalTimeoutMs < evaluationTimeoutMs := by decide

/-- C8 counterexample: age 0 is an integer below 5, yet the resolver maps
it to teen rather than clamping it to young, because the JS falsy guard on
the age intercepts 0; this contradicts the claimed clamping of every
below-range age to young. -/
theorem c8_counterexample :
    ((0 : Int) < 5) ∧ getAgeGroup (some 0) = AgeGroup.teen ∧
      getAgeGroup (some 0) ≠ AgeGroup.young := by decide

/-- C8 amended: the age-band resolver is total and deterministic with
exactly three values; ages 5-8 map to young, 9-12 to middle, 13-17 to teen,
an absent age maps to teen, ages above 17 clamp to teen, and ages below 5
clamp to young EXCEPT the age 0, which the falsy guard treats like an
absent age and maps to teen; AgeBand(7)=young, AgeBand(11)=middle,
AgeBand(16)=teen, AgeBand(null)=teen. -/
theorem c8_age_band_amended :
    (∀ a : Option Int, getAgeGroup a = AgeGroup.young ∨ getAgeGroup a = AgeGroup.middle ∨
      getAgeGroup a = AgeGroup.teen) ∧
    getAgeGroup (some 7) = AgeGroup.young ∧
    getAgeGroup (some 11) = AgeGroup.middle ∧
    getAgeGroup (some 16) = AgeGroup.teen ∧
    getAgeGroup none = AgeGroup.teen ∧
    getAgeGroup (some 0) = AgeGroup.teen ∧
    (∀ a : Int, 5 ≤ a → a ≤ 8 → getAgeGroup (some a) = AgeGroup.young) ∧
    (∀ a : Int, 9 ≤ a → a ≤ 12 → getAgeGroup (some a) = AgeGroup.middle) ∧
    (∀ a : Int, 13 ≤ a → a ≤ 17 → getAgeGroup (some a) = AgeGroup.teen) ∧
    (∀ a : Int, a ≠ 0 → a < 5 → getAgeGroup (some a) = AgeGroup.young) ∧
    (∀ a : Int, 17 < a → getAgeGroup (some a) = AgeGroup.teen) := by
  refine ⟨?_, by decide, by decide, by decide, by decide, by decide, ?_, ?_, ?_, ?_, ?_⟩
  · intro a
    cases a with
    | none => simp [getAgeGroup]
    | some a => simp only [getAgeGroup]; split_ifs <;> simp
  all_goals intro a
  · intro h1 h2
    simp only [getAgeGroup]; split_ifs <;> first | rfl | (exfalso; omega)
  · intro h1 h2
    simp only [getAgeGroup]; split_ifs <;> first | rfl | (exfalso; omega)
  · intro h1 h2
    simp only [getAgeGroup]; split_ifs <;> first | rfl | (exfalso; omega)
  · intro h1 h2
    simp only [getAgeGroup]; split_ifs <;> first | rfl | (exfalso; omega)
  · intro h1
    simp only [getAgeGroup]; split_ifs <;> first | rfl | (exfalso; omega)

/-- C8 witness: the amended range facts applied at concrete ages. -/
theorem c8_age_band_amended_witness :
    getAgeGroup (some 6) = AgeGroup.young ∧
    getAgeGroup (some 10) = AgeGroup.middle ∧
    getAgeGroup (some 15) = AgeGroup.teen ∧
    getAgeGroup (some (-2)) = AgeGroup.young ∧
    getAgeGroup (some 40) = AgeGroup.teen := by
  exact ⟨c8_age_band_amended.2.2.2.2.2.2.1 6 (by decide) (by decide),
         c8_age_band_amended.2.2.2.2.2.2.2.1 10 (by decide) (by decide),
         c8_age_band_amended.2.2.2.2.2.2.2.2.1 15 (by decide) (by decide),
         c8_age_band_amended.2.2.2.2.2.2.2.2.2.1 (-2) (by decide) (by decide),
         c8_age_band_amended.2.2.2.2.2.2.2.2.2.2 40 (by decide)⟩

/-- C9: the nonsense classifier returns true exactly when the trimmed text
is shorter than 3 characters or matches one of the fixed junk patterns (no
letters; a character repeated 4 or more times; 5 or more letters and
nothing else; digits and whitespace only; special characters only; fixed
keyboard-mash or filler leads; tripled-letter leads; the literal word test;
greetings; two literal bug phrases); in particular asdf and hi are
nonsensical while a real question is not. -/
theorem c9_nonsense_classifier :
    (∀ q : String, isNonsensicalQuestion q =
      (decide ((trimChars q.data).length < 3) || anyJunkPattern (trimChars q.data))) ∧
    isNonsensicalQuestion "asdf" = true ∧
    isNonsensicalQuestion "hi" = true ∧
    isNonsensicalQuestion "Why is the sky blue?" = false := by
  exact ⟨fun q => rfl, by decide, by decide, by decide⟩

/-- C10: every reachable usage state yields finite numeric averages from
getUsageStats, and in particular the initial state with zero conversations
yields 0 for averageTokensPerConversation and costPerConversation rather
than NaN: the division by the conversation count is guarded by the JS
or-zero idiom at the public interface, and a positive token total never
coexists with a zero conversation count. -/
theorem c10_usage_stats_guarded :
    ∀ s : UsageState, ReachableUsage s →
      (∃ q, averageTokensPerConversation s = .val q) ∧
      (∃ q, costPerConversation s = .val q) ∧
      (s.conversations = 0 →
        averageTokensPerConversation s = .val 0 ∧ costPerConversation s = .val 0) := by
  intro s h
  induction h with
  | init =>
    refine ⟨⟨0, ?_⟩, ⟨0, ?_⟩, fun _ => ⟨?_, ?_⟩⟩ <;>
      simp [averageTokensPerConversation, costPerConversation, initialUsage, jsDiv, jsOrZero]
  | step s u hs ih =>
    have hc : ((updateUsage s u).conversations : ℚ) ≠ 0 := by
      have he : (updateUsage s u).conversations = s.conversations + 1 := rfl
      rw [he]
      exact Nat.cast_ne_zero.mpr (Nat.succ_ne_zero _)
    constructor
    · rw [averageTokensPerConversation, jsDiv_of_ne_zero _ _ hc]
      exact jsOrZero_val _
    constructor
    · rw [costPerConversation, jsDiv_of_ne_zero _ _ hc]
      exact jsOrZero_val _
    · intro h0
      exfalso
      simp [updateUsage] at h0
/-- C10 witness: the guarantee applied to the initial state, which is
reachable by construction. -/
theorem c10_usage_stats_guarded_witness :
    averageTokensPerConversation initialUsage = .val 0 ∧
    costPerConversation initialUsage = .val 0 := by
  exact (c10_usage_stats_guarded initialUsage ReachableUsage.init).2.2 rfl

/-- C1: the claim fails on the code: Lean evaluation of the embedded
handler shows that the question-stage half is faithful (a non-nonsensical
question whose provider call succeeds moves to understanding and stores the
pending question and answer), but every understanding-stage turn that
reaches the evaluate path throws ReferenceError at the childInterests
debug log BEFORE consulting the judge, so the turn unconditionally signals
unlock exactly once with the age-banded message and clears the state,
whatever verdict the adapter would have produced; no reply is ever judged,
and no understanding-stage turn ever returns the retry response the claim
describes for understood:false. -/
theorem c1_controller_round_trip_bug :
    (∀ (st : ConvState) (m text : String) (tok : Nat)
        (rest : List (Except Unit (String × Nat))) (evalOut : Except Unit Evaluation)
        (nl : Option (Option String)) (ag : AgeGroup),
      isNonsensicalQuestion m = false →
      processMessage st m .question (answerCallOfBase m (.ok (text, tok) :: rest)) evalOut nl ag =
        some ({ message := text, stage := .understanding, retry := false, error := false,
                unlock := false, unlockSignals := 0 },
              { pendingQuestion := some m, pendingAnswer := some text })) ∧
    (∀ (st : ConvState) (m : String) (ans : AnswerCall) (evalOut : Except Unit Evaluation)
        (nl : Option (Option String)) (ag : AgeGroup),
      isNewQuestion m = false →
      processMessage st m .understanding ans evalOut nl ag =
        some ({ message := unlockMessage ag, stage := .complete, retry := false,
                error := false, unlock := true, unlockSignals := 1 }, resetConvState)) ∧
    (∀ (st : ConvState) (m : String) (ans : AnswerCall) (evalOut : Except Unit Evaluation)
        (nl : Option (Option String)) (ag : AgeGroup),
      Option.map (fun p => p.1.retry) (processMessage st m .understanding ans evalOut nl ag) =
        some false) := by
  refine ⟨?_, ?_, ?_⟩
  · intro st m text tok rest evalOut nl ag h
    simp [processMessage, answerCallOfBase, answerQuestionBase, h, runRetries, answerTurn]
  · intro st m ans evalOut nl ag h
    simp [processMessage, h, evaluateTurn, evaluateTryBody]
  · intro st m ans evalOut nl ag
    by_cases hq : isNewQuestion m = true
    · cases ans <;> simp [processMessage, hq, answerTurn]
    · rw [Bool.not_eq_true] at hq
      simp [processMessage, hq, evaluateTurn, evaluateTryBody]

/-- C1 witness: the faithful question-stage transition, and an
understanding-stage turn whose adapter verdict is understood false that
nevertheless unlocks because the judge is never reached. -/
theorem c1_controller_round_trip_bug_witness :
    processMessage resetConvState "Why is the sky blue?" .question
        (answerCallOfBase "Why is the sky blue?" [.ok ("Light scatters. What else scatters?", 42)])
        (.error ()) none AgeGroup.teen =
      some ({ message := "Light scatters. What else scatters?", stage := .understanding,
              retry := false, error := false, unlock := false, unlockSignals := 0 },
            { pendingQuestion := some "Why is the sky blue?",
              pendingAnswer := some "Light scatters. What else scatters?" }) ∧
    processMessage { pendingQuestion := some "Why is the sky blue?",
                     pendingAnswer := some "Light scatters. What else scatters?" }
        "hmm" .understanding .failed
        (.ok { understood := false, feedback := "Hmm.", suggestion := none }) none AgeGroup.middle =
      some ({ message := unlockMessage AgeGroup.middle, stage := .complete, retry := false,
              error := false, unlock := true, unlockSignals := 1 }, resetConvState) := by
  exact ⟨c1_controller_round_trip_bug.1 resetConvState "Why is the sky blue?"
           "Light scatters. What else scatters?" 42 [] (.error ()) none AgeGroup.teen (by decide),
         c1_controller_round_trip_bug.2.1 _ "hmm" .failed
           (.ok { understood := false, feedback := "Hmm.", suggestion := none }) none
           AgeGroup.middle (by decide)⟩

/-- C3: when the answer operation of the adapter fails after exhausting its
retries, the base adapter surfaces a thrown error, and the controller catch
resets the conversation state and returns error true with stage question,
never stage understanding or complete, and never signals unlock; this holds
both for a question-stage turn and for an understanding-stage turn that
re-dispatched the utterance as a new question. -/
theorem c3_answer_failure_resets :
    (∀ (q : String) (attempts : List (Except Unit (String × Nat))),
      isNonsensicalQuestion q = false → (∀ a ∈ attempts, a = .error ()) →
      answerCallOfBase q attempts = .failed) ∧
    (∀ (st : ConvState) (m : String) (evalOut : Except Unit Evaluation)
        (nl : Option (Option String)) (ag : AgeGroup),
      processMessage st m .question .failed evalOut nl ag =
        some ({ message := connectivityErrorMessage, stage := .question, retry := false,
                error := true, unlock := false, unlockSignals := 0 }, resetConvState)) ∧
    (∀ (st : ConvState) (m : String) (evalOut : Except Unit Evaluation)
        (nl : Option (Option String)) (ag : AgeGroup),
      isNewQuestion m = true →
      processMessage st m .understanding .failed evalOut nl ag =
        some ({ message := connectivityErrorMessage, stage := .question, retry := false,
                error := true, unlock := false, unlockSignals := 0 }, resetConvState)) := by
  refine ⟨?_, ?_, ?_⟩
  · intro q attempts h he
    simp [answerCallOfBase, answerQuestionBase, h, runRetries_all_error attempts he]
  · intro st m evalOut nl ag
    simp [processMessage, answerTurn]
  · intro st m evalOut nl ag h
    simp [processMessage, h, answerTurn]

/-- C3 witness: a question-stage turn and a new-question understanding turn
with all three retries failing. -/
theorem c3_answer_failure_resets_witness :
    answerCallOfBase "Why is the sky blue?" [.error (), .error (), .error ()] = .failed ∧
    processMessage resetConvState "Why is the sky blue?" .question .failed (.error ())
        none AgeGroup.teen =
      some ({ message := connectivityErrorMessage, stage := .question, retry := false,
              error := true, unlock := false, unlockSignals := 0 }, resetConvState) ∧
    processMessage { pendingQuestion := some "Q", pendingAnswer := some "A?" }
        "What causes rain?" .understanding .failed (.error ()) none AgeGroup.teen =
      some ({ message := connectivityErrorMessage, stage := .question, retry := false,
              error := true, unlock := false, unlockSignals := 0 }, resetConvState) := by
  exact ⟨c3_answer_failure_resets.1 "Why is the sky blue?" [.error (), .error (), .error ()]
           (by decide) (by simp),
         c3_answer_failure_resets.2.1 resetConvState "Why is the sky blue?" (.error ())
           none AgeGroup.teen,
         c3_answer_failure_resets.2.2 _ "What causes rain?" (.error ()) none AgeGroup.teen
           (by decide)⟩

/-- C4 counterexample: the claim requires every provider, in particular the
Gemini override, to short-circuit a nonsensical question before any
network call with a canned redirect and zero usage. The question asdf is
classified nonsensical, yet the Gemini answer operation makes a network
call (call count 1, not 0) and returns the provider text with nonzero
estimated token usage instead of the redirect. -/
theorem c4_counterexample :
    isNonsensicalQuestion "asdf" = true ∧
    answerQuestionGemini "asdf" [.ok "Keyboards make letters. What else do they make?"] =
      (.ok { answer := "Keyboards make letters. What else do they make?",
             totalTokens := geminiEstimatedTokens "asdf"
               "Keyboards make letters. What else do they make?",
             isNonsense := false }, 1) ∧
    "Keyboards make letters. What else do they make?" ≠ nonsenseRedirect ∧
    geminiEstimatedTokens "asdf" "Keyboards make letters. What else do they make?" ≠ 0 := by
  refine ⟨by decide, rfl, by decide, by decide⟩

/-- C4 amended: the nonsense short-circuit is performed by the base
provider answer operation (and so inherited by the Claude subclass): a
nonsensical question returns the canned redirect with zero token usage and
zero network calls. The Gemini override performs no such check: it issues a
network call whatever the question and returns the provider text. -/
theorem c4_nonsense_short_circuit_amended :
    (∀ (q : String) (attempts : List (Except Unit (String × Nat))),
      isNonsensicalQuestion q = true →
      answerQuestionBase q attempts =
        (.ok { answer := nonsenseRedirect, totalTokens := 0, isNonsense := true }, 0)) ∧
    (∀ (q text : String) (rest : List (Except Unit String)),
      answerQuestionGemini q (.ok text :: rest) =
        (.ok { answer := text, totalTokens := geminiEstimatedTokens q text,
               isNonsense := false }, 1)) := by
  constructor
  · intro q attempts h
    simp [answerQuestionBase, h]
  · intro q text rest
    simp [answerQuestionGemini, runRetries]

/-- C4 witness: the base short-circuit and the Gemini pass-through at the
same nonsensical question. -/
theorem c4_nonsense_short_circuit_amended_witness :
    answerQuestionBase "asdf" [.ok ("ignored", 7)] =
      (.ok { answer := nonsenseRedirect, totalTokens := 0, isNonsense := true }, 0) ∧
    answerQuestionGemini "asdf" [.ok "An answer?"] =
      (.ok { answer := "An answer?", totalTokens := geminiEstimatedTokens "asdf" "An answer?",
             isNonsense := false }, 1) := by
  exact ⟨c4_nonsense_short_circuit_amended.1 "asdf" [.ok ("ignored", 7)] (by decide),
         c4_nonsense_short_circuit_amended.2 "asdf" "An answer?" []⟩

/-- C6: the detector itself is faithful: it returns true exactly when the
utterance contains a question mark and its lowercased trimmed form starts
with one of the fixed interrogative words, and the three specification
examples hold; an understanding-stage utterance with a question mark that
does not start with an interrogative word is indeed never treated as a new
question and is dispatched to the evaluate branch — but there the claimed
evaluation never happens: the handler throws ReferenceError at the
childInterests debug log before the evaluate call, so the turn
unconditionally unlocks instead of being judged as an answer to the
pending follow-up. -/
theorem c6_new_question_detector :
    (∀ m : String, isNewQuestion m = (hasQuestionMark m && startsWithQuestionWord m)) ∧
    isNewQuestion "What causes rain?" = true ∧
    isNewQuestion "do plants move fast" = false ∧
    isNewQuestion "is that true?" = false ∧
    (∀ (st : ConvState) (m : String) (ans : AnswerCall) (evalOut : Except Unit Evaluation)
        (nl : Option (Option String)) (ag : AgeGroup),
      hasQuestionMark m = true → startsWithQuestionWord m = false →
      processMessage st m .understanding ans evalOut nl ag =
        some (evaluateTurn st evalOut nl ag)) ∧
    (∀ (st : ConvState) (evalOut : Except Unit Evaluation)
        (nl : Option (Option String)) (ag : AgeGroup),
      evaluateTurn st evalOut nl ag =
        ({ message := unlockMessage ag, stage := .complete, retry := false, error := false,
           unlock := true, unlockSignals := 1 }, resetConvState)) := by
  refine ⟨fun m => rfl, by decide, by decide, by decide, ?_, ?_⟩
  · intro st m ans evalOut nl ag h1 h2
    have hnq : isNewQuestion m = false := by
      simp [isNewQuestion, h2]
    simp [processMessage, hnq]
  · intro st evalOut nl ag
    simp [evaluateTurn, evaluateTryBody]

/-- C6 witness: the phrase is that true carries a question mark, starts
with no interrogative word, is dispatched to the evaluate branch, and
there the turn unlocks without the adapter verdict (understood false)
ever being consulted. -/
theorem c6_new_question_detector_witness :
    processMessage { pendingQuestion := some "Q", pendingAnswer := some "A?" }
        "is that true?" .understanding .failed
        (.ok { understood := false, feedback := "Hmm.", suggestion := some "Look again." })
        none AgeGroup.teen =
      some (evaluateTurn { pendingQuestion := some "Q", pendingAnswer := some "A?" }
        (.ok { understood := false, feedback := "Hmm.", suggestion := some "Look again." })
        none AgeGroup.teen) ∧
    evaluateTurn { pendingQuestion := some "Q", pendingAnswer := some "A?" }
        (.ok { understood := false, feedback := "Hmm.", suggestion := some "Look again." })
        none AgeGroup.teen =
      ({ message := unlockMessage AgeGroup.teen, stage := .complete, retry := false,
         error := false, unlock := true, unlockSignals := 1 }, resetConvState) := by
  exact ⟨c6_new_question_detector.2.2.2.2.1 _ "is that true?" .failed _ none AgeGroup.teen
           (by decide) (by decide),
         c6_new_question_detector.2.2.2.2.2 _ _ none AgeGroup.teen⟩

/-- C7: the follow-up extractor returns the trailing clause ending in a
question mark when the text (up to trailing whitespace) ends in one, else
the last question-mark-terminated substring in document order, else none;
on the specification example it returns exactly the final question, and on
text containing no question mark it returns none. -/
theorem c7_follow_up_extractor :
    extractFollowUpQuestion "Plants grow toward light. What do you think helps them sense it?" =
      some "What do you think helps them sense it?" ∧
    (∀ s : String, '?' ∉ s.data → extractFollowUpQuestion s = none) ∧
    (∀ (s : String) (g : List Char), primaryQuestionMatch s.data = some g →
      extractFollowUpQuestion s = some (String.mk (trimChars g))) ∧
    (∀ (s : String) (g : List Char), primaryQuestionMatch s.data = none →
      lastQuestionMatch s.data = some g →
      extractFollowUpQuestion s = some (String.mk (trimChars g))) := by
  refine ⟨by decide, ?_, ?_, ?_⟩
  · intro s h
    unfold extractFollowUpQuestion
    rw [primaryQuestionMatch_eq_none h, lastQuestionMatch_eq_none h]
    split <;> rfl
  · intro s g h
    have hne : s.data.isEmpty = false := by
      cases hd : s.data with
      | nil => rw [hd] at h; simp [primaryQuestionMatch, dropTrailingWs] at h
      | cons a l => simp [hd]
    simp [extractFollowUpQuestion, hne, h]
  · intro s g h1 h2
    have hne : s.data.isEmpty = false := by
      cases hd : s.data with
      | nil => rw [hd] at h2; simp [lastQuestionMatch] at h2
      | cons a l => simp [hd]
    simp [extractFollowUpQuestion, hne, h1, h2]

/-- C7 witness: the no-question-mark case and both match tiers at concrete
prose. -/
theorem c7_follow_up_extractor_witness :
    extractFollowUpQuestion "Plants grow toward light and water." = none ∧
    extractFollowUpQuestion "Is it true? Yes it is." = some "Is it true?" := by
  constructor
  · exact c7_follow_up_extractor.2.1 "Plants grow toward light and water." (by decide)
  · exact c7_follow_up_extractor.2.2.2 "Is it true? Yes it is." "Is it true?".data
      (by decide) (by decide)
